import Mathlib

/-!
# Diary++ : a shallow embedding of `Diary++/Diary++.cpp`

The program keeps one table `Diary (Date TEXT PRIMARY KEY, Entry TEXT)` in an
SQLite file and drives five functions over it from a console menu.

* Strings are `String`; what SQLite receives through `s.c_str()` with length `-1`
  is `c_str s`, the characters in front of the first NUL.
* The connection `sqlite3*` is a value of `sqlite3`: the rows of `Diary` in retrieval
  order, the number of prepared statements that were not finalized, and the last
  error message.  Every function takes the connection and returns the new one.
* `std::cout` / `std::cerr` are the list of `Event`s a function writes, in order.
* The clock, the standard input and the bytes behind an out-of-bounds pointer are
  parameters.
-/

namespace Diary

/-! ## Constants (lines 8-27) -/

def MENU_WRITE : Char := 'W'
def MENU_DELETE : Char := 'D'
def MENU_READ : Char := 'R'
def MENU_QUIT : Char := 'Q'
def MENU_EXIT : Char := 'E'

def DATE_FORMAT : String := "%Y-%m-%d"
def ERROR_LOCAL_TIME : String := "Failed to get local time"
def ERROR_STRFTIME : String := "strftime failed"
def ERROR_DELETE_FAILED : String := "Delete failed: "
def SUCCESS_ENTRY_DELETED : String := "Diary entry deleted successfully."
def SUCCESS_ENTRY_ADDED : String := "Diary entry added successfully."
def NO_ENTRY_FOUND : String := "No entry found for the specified date."
def ENTRY_DOES_NOT_EXIST : String := "Diary entry does not exist."

/-! ## C strings -/

/-- The NUL character that terminates a C string. -/
def NUL : Char := Char.ofNat 0

/-- The text a `const char*` obtained from `s.c_str()` denotes when its length is given
as `-1`: the characters of `s` in front of the first NUL. -/
def c_str (s : String) : String := ⟨s.data.takeWhile (fun c => c != NUL)⟩

/-- A text: a string without a NUL character, so that it is its own C string. -/
def NulFree (s : String) : Prop := NUL ∉ s.data

instance (s : String) : Decidable (NulFree s) := by unfold NulFree; infer_instance

/-! ## Console -/

/-- One write to a standard stream. -/
inductive Event where
  | cout (s : String)
  | cerr (s : String)
deriving DecidableEq

/-! ## The SQLite engine, as far as the program uses it -/

def SQLITE_OK : Int := 0
def SQLITE_ERROR : Int := 1
def SQLITE_BUSY : Int := 5
def SQLITE_CONSTRAINT : Int := 19
def SQLITE_MISUSE : Int := 21
def SQLITE_ROW : Int := 100
def SQLITE_DONE : Int := 101

/-- A row of `Diary (Date TEXT PRIMARY KEY, Entry TEXT)`. -/
structure Row where
  Date : String
  Entry : String
deriving DecidableEq

/-- The state behind a `sqlite3*` on which table `Diary` exists (line 188 succeeded). -/
structure sqlite3 where
  /-- rows of `Diary`, in the order a scan retrieves them -/
  Diary : List Row
  /-- prepared statements not yet finalized -/
  stmts : Nat
  /-- what `sqlite3_errmsg` returns -/
  errmsg : String
deriving DecidableEq

/-- The statements the program prepares. -/
inductive Sql where
  | countByDate
  | selectDates
  | deleteByDate
  | selectEntry
  | insertRow
deriving DecidableEq

def checkEntrySQL : String := "SELECT COUNT(*) FROM Diary WHERE Date = ?;"
def selectDatesSQL : String := "SELECT Date FROM Diary;"
def deleteSQL : String := "DELETE FROM Diary WHERE Date = ?;"
def selectSQL : String := "SELECT Entry FROM Diary WHERE Date = ?;"
def insertSQL : String := "INSERT INTO Diary (Date, Entry) VALUES (?, ?);"

/-- Compilation of a statement text; any other text is an error of `sqlite3_prepare_v2`. -/
def compile (zSql : String) : Option Sql :=
  if zSql = checkEntrySQL then some Sql.countByDate
  else if zSql = selectDatesSQL then some Sql.selectDates
  else if zSql = deleteSQL then some Sql.deleteByDate
  else if zSql = selectSQL then some Sql.selectEntry
  else if zSql = insertSQL then some Sql.insertRow
  else none

/-- A column value of a result row. -/
inductive Value where
  | integer (n : Int)
  | text (s : String)
deriving DecidableEq

/-- The state behind a `sqlite3_stmt*`. -/
structure sqlite3_stmt where
  sql : Sql
  /-- parameter 1; `none` is an unbound parameter, which is NULL -/
  arg1 : Option String
  /-- parameter 2 -/
  arg2 : Option String
  /-- result rows not yet returned; `none` before the first step -/
  pending : Option (List (List Value))
  /-- the current result row -/
  row : List Value
deriving DecidableEq

/-- The call `sqlite3_prepare_v2(db, zSql, -1, &stmt, 0)`: `some stmt` stands for `SQLITE_OK`,
`none` for an error code and a NULL statement. -/
def sqlite3_prepare_v2 (db : sqlite3) (zSql : String) : sqlite3 × Option sqlite3_stmt :=
  match compile zSql with
  | some sql => ({ db with stmts := db.stmts + 1 }, some ⟨sql, none, none, none, []⟩)
  | none => ({ db with errmsg := "SQL logic error" }, none)

/-- The call `sqlite3_bind_text(stmt, i, text, -1, SQLITE_STATIC)`, with `text` the C string. -/
def sqlite3_bind_text (stmt : sqlite3_stmt) (i : Nat) (text : String) : sqlite3_stmt :=
  if i = 1 then { stmt with arg1 := some text }
  else if i = 2 then { stmt with arg2 := some text }
  else stmt

/-- The condition `Date = ?`: a NULL parameter equals nothing. -/
def dateIs (arg : Option String) (r : Row) : Bool := arg == some r.Date

/-- Running a statement against the table: result code, new connection state, result rows.
An `INSERT` of a `Date` that is already stored violates the primary key. -/
def execute (db : sqlite3) (stmt : sqlite3_stmt) : Int × sqlite3 × List (List Value) :=
  match stmt.sql with
  | Sql.countByDate =>
    (SQLITE_OK, db, [[Value.integer ((db.Diary.filter (dateIs stmt.arg1)).length : Nat)]])
  | Sql.selectDates =>
    (SQLITE_OK, db, db.Diary.map (fun r => [Value.text r.Date]))
  | Sql.selectEntry =>
    (SQLITE_OK, db, (db.Diary.filter (dateIs stmt.arg1)).map (fun r => [Value.text r.Entry]))
  | Sql.deleteByDate =>
    (SQLITE_OK, { db with Diary := db.Diary.filter (fun r => !(dateIs stmt.arg1 r)) }, [])
  | Sql.insertRow =>
    match stmt.arg1, stmt.arg2 with
    | some date, some entry =>
      if db.Diary.any (fun r => r.Date == date) then
        (SQLITE_CONSTRAINT, { db with errmsg := "UNIQUE constraint failed: Diary.Date" }, [])
      else
        (SQLITE_OK, { db with Diary := db.Diary ++ [⟨date, entry⟩] }, [])
    | _, _ => (SQLITE_MISUSE, db, [])

/-- Moving a started statement to its next result row. -/
def fetch (db : sqlite3) (stmt : sqlite3_stmt) : Int × sqlite3 × sqlite3_stmt :=
  match stmt.pending with
  | some (r :: rest) => (SQLITE_ROW, db, { stmt with pending := some rest, row := r })
  | _ => (SQLITE_DONE, db, { stmt with pending := some [], row := [] })

/-- The call `sqlite3_step(stmt)`. -/
def sqlite3_step (db : sqlite3) (stmt : sqlite3_stmt) : Int × sqlite3 × sqlite3_stmt :=
  match stmt.pending with
  | none =>
    match execute db stmt with
    | (rc, db1, rows) =>
      if rc = SQLITE_OK then fetch db1 { stmt with pending := some rows } else (rc, db1, stmt)
  | some _ => fetch db stmt

/-- The call `sqlite3_column_int(stmt, i)`. -/
def sqlite3_column_int (stmt : sqlite3_stmt) (i : Nat) : Int :=
  match stmt.row.get? i with
  | some (Value.integer n) => n
  | _ => 0

/-- The call `sqlite3_column_text(stmt, i)`, read as the C string it points to. -/
def sqlite3_column_text (stmt : sqlite3_stmt) (i : Nat) : String :=
  match stmt.row.get? i with
  | some (Value.text s) => s
  | some (Value.integer n) => toString n
  | none => ""

/-- The call `sqlite3_finalize(stmt)`. -/
def sqlite3_finalize (db : sqlite3) (_stmt : sqlite3_stmt) : sqlite3 :=
  { db with stmts := db.stmts - 1 }

/-- The call `sqlite3_close(db)`: refused with `SQLITE_BUSY` while a statement is not finalized. -/
def sqlite3_close (db : sqlite3) : Int :=
  if db.stmts = 0 then SQLITE_OK else SQLITE_BUSY

/-- Whether table `Diary` holds a row with this date. -/
def stored (db : sqlite3) (date : String) : Bool := db.Diary.any (fun r => r.Date == date)

/-! ## The five store functions (lines 50-168) -/

/-- Lines 51-70. -/
def doesEntryExist (db : sqlite3) (date : String) : Bool × sqlite3 :=
  match sqlite3_prepare_v2 db checkEntrySQL with
  | (db1, some stmt) =>
    let stmt1 := sqlite3_bind_text stmt 1 (c_str date)
    match sqlite3_step db1 stmt1 with
    | (rc, db2, stmt2) =>
      if rc = SQLITE_ROW then
        let count := sqlite3_column_int stmt2 0
        -- line 63 returns here; line 66 is not reached
        (decide (count > 0), db2)
      else
        (false, sqlite3_finalize db2 stmt2)
  | (db1, none) => (false, db1)

/-- The loop of lines 83-87; it returns the dates it printed. -/
def printLoop : Nat → sqlite3 → sqlite3_stmt → List String →
    Option (sqlite3 × sqlite3_stmt × List String)
  | 0, _, _, _ => none
  | fuel + 1, db, stmt, printed =>
    match sqlite3_step db stmt with
    | (rc, db1, stmt1) =>
      if rc = SQLITE_ROW then
        let date := sqlite3_column_text stmt1 0
        printLoop fuel db1 stmt1 (printed ++ [date])
      else
        some (db1, stmt1, printed)

/-- Lines 74-93: the new connection, the output, and the dates printed (in order). -/
def printAllEntryDates (fuel : Nat) (db : sqlite3) :
    Option (sqlite3 × List Event × List String) :=
  match sqlite3_prepare_v2 db selectDatesSQL with
  | (db1, some stmt) =>
    match printLoop fuel db1 stmt [] with
    | some (db2, stmt2, dates) =>
      some (sqlite3_finalize db2 stmt2,
        [Event.cout "Dates of Diary Entries:\n"]
          ++ dates.map (fun date => Event.cout (date ++ "\n"))
          ++ [Event.cout "\n"],
        dates)
    | none => none
  | (db1, none) => some (db1, [Event.cout "\n"], [])

/-- Lines 96-122. -/
def deleteDiaryEntry (db : sqlite3) (date : String) : sqlite3 × List Event :=
  match doesEntryExist db date with
  | (true, db0) =>
    match sqlite3_prepare_v2 db0 deleteSQL with
    | (db1, some stmt) =>
      let stmt1 := sqlite3_bind_text stmt 1 (c_str date)
      match sqlite3_step db1 stmt1 with
      | (rc, db2, stmt2) =>
        if rc ≠ SQLITE_DONE then
          (db2, [Event.cerr (ERROR_DELETE_FAILED ++ db2.errmsg ++ "\n")])
        else
          (sqlite3_finalize db2 stmt2, [Event.cout (SUCCESS_ENTRY_DELETED ++ "\n")])
    | (db1, none) => (db1, [Event.cout (SUCCESS_ENTRY_DELETED ++ "\n")])
  | (false, db0) => (db0, [Event.cout (ENTRY_DOES_NOT_EXIST ++ "\n")])

/-- Lines 126-147. -/
def viewDiaryEntry (db : sqlite3) (date : String) : sqlite3 × List Event :=
  match sqlite3_prepare_v2 db selectSQL with
  | (db1, some stmt) =>
    let stmt1 := sqlite3_bind_text stmt 1 (c_str date)
    match sqlite3_step db1 stmt1 with
    | (rc, db2, stmt2) =>
      if rc = SQLITE_ROW then
        let entry := sqlite3_column_text stmt2 0
        (sqlite3_finalize db2 stmt2,
          [Event.cout ("Date: " ++ date ++ "\nEntry: " ++ entry ++ "\n")])
      else
        (sqlite3_finalize db2 stmt2, [Event.cout (NO_ENTRY_FOUND ++ "\n")])
  | (db1, none) => (db1, [])

/-- Lines 150-168. -/
def addDiaryEntry (db : sqlite3) (date : String) (entry : String) : sqlite3 × List Event :=
  match sqlite3_prepare_v2 db insertSQL with
  | (db1, some stmt) =>
    let stmt1 := sqlite3_bind_text stmt 1 (c_str date)
    let stmt2 := sqlite3_bind_text stmt1 2 (c_str entry)
    match sqlite3_step db1 stmt2 with
    | (rc, db2, stmt3) =>
      let failed :=
        if rc ≠ SQLITE_DONE then [Event.cerr ("Insert failed: " ++ db2.errmsg ++ "\n")] else []
      (sqlite3_finalize db2 stmt3, failed ++ [Event.cout (SUCCESS_ENTRY_ADDED ++ "\n")])
  | (db1, none) => (db1, [Event.cout (SUCCESS_ENTRY_ADDED ++ "\n")])

/-! ## Today's date (lines 29-48) -/

/-- The fields of `struct tm` that `%Y-%m-%d` reads. -/
structure tm where
  /-- years since 1900 -/
  tm_year : Int
  /-- months since January, 0 to 11 -/
  tm_mon : Int
  /-- day of the month, 1 to 31 -/
  tm_mday : Int
deriving DecidableEq

/-- The character of a decimal digit. -/
def digit (n : Nat) : Char := Char.ofNat (48 + n % 10)

/-- Decimal digits of `n`, most significant first, written in front of `acc`. -/
def decimalAux : Nat → Nat → List Char → List Char
  | 0, _, acc => acc
  | fuel + 1, n, acc =>
    if n < 10 then digit n :: acc else decimalAux fuel (n / 10) (digit n :: acc)

/-- A natural number as a decimal number, without padding. -/
def decimal (n : Nat) : List Char := decimalAux (n + 1) n []

/-- The conversion `%Y`: the year as a decimal number. -/
def conv_Y (t : tm) : List Char :=
  let year := t.tm_year + 1900
  if year < 0 then '-' :: decimal year.natAbs else decimal year.toNat

/-- The conversions `%m` and `%d`: a decimal number of two digits. -/
def conv_02 (n : Int) : List Char := [digit (n.toNat / 10), digit n.toNat]

/-- The text `strftime` produces for a format of ordinary characters, `%Y`, `%m` and `%d`. -/
def expand (t : tm) : List Char → List Char
  | [] => []
  | [c] => [c]
  | c :: d :: rest =>
    if c = '%' then
      (if d = 'Y' then conv_Y t
       else if d = 'm' then conv_02 (t.tm_mon + 1)
       else if d = 'd' then conv_02 t.tm_mday
       else []) ++ expand t rest
    else c :: expand t (d :: rest)

/-- The call `strftime(buf, maxsize, format, &t)`: the number of characters written and the
buffer as a C string; `0` when the text and its terminator do not fit in `maxsize` bytes. -/
def strftime (maxsize : Nat) (format : String) (t : tm) : Nat × String :=
  let text := expand t format.data
  if text.length + 1 ≤ maxsize then (text.length, ⟨text⟩) else (0, "")

/-- Lines 30-48; `localtime` is what `localtime_s` yields for the clock, `none` when it fails.
A thrown `std::runtime_error` is `Except.error`. -/
def getCurrentDate (localtime : Option tm) : Except String String :=
  match localtime with
  | none => Except.error ERROR_LOCAL_TIME
  | some time_info =>
    match strftime 11 DATE_FORMAT time_info with
    | (n, date) => if n = 0 then Except.error ERROR_STRFTIME else Except.ok (c_str date)

/-- The `k` low decimal digits of `n`, most significant first: `n` zero-padded to `k` digits. -/
def zeroPadded : Nat → Nat → List Char
  | 0, _ => []
  | k + 1, n => zeroPadded k (n / 10) ++ [digit n]

/-- The key of the specification: zero-padded 4-digit year, `-`, zero-padded 2-digit month,
`-`, zero-padded 2-digit day. -/
def isoKey (year month day : Nat) : String :=
  ⟨zeroPadded 4 year ++ ['-'] ++ zeroPadded 2 month ++ ['-'] ++ zeroPadded 2 day⟩

/-! ## Standard input -/

/-- The whitespace of the C locale. -/
def isspace (c : Char) : Bool :=
  c = ' ' || c = '\t' || c = '\n' || c = Char.ofNat 11 || c = Char.ofNat 12 || c = '\r'

/-- The extraction `std::cin >> s` into a fresh string: skips whitespace and reads up to the
next whitespace or the end of input (where `s` stays empty). -/
def readWord (cin : List Char) : String × List Char :=
  let rest := cin.dropWhile isspace
  (⟨rest.takeWhile (fun c => !isspace c)⟩, rest.dropWhile (fun c => !isspace c))

/-- The call `std::cin.ignore(max, '\n')`: discards through the next newline. -/
def ignoreLine (cin : List Char) : List Char :=
  (cin.dropWhile (fun c => c != '\n')).drop 1

/-- The call `std::getline(std::cin, s)` into a fresh string. -/
def getline (cin : List Char) : String × List Char :=
  (⟨cin.takeWhile (fun c => c != '\n')⟩, (cin.dropWhile (fun c => c != '\n')).drop 1)

/-- The call `toupper(s[0])`, where `s[0]` of an empty string is NUL. -/
def toupperFirst (s : String) : Char := (s.data.headD NUL).toUpper

/-! ## `main` (lines 172-271) -/

/-- A call of a store function, recorded in the order main makes them. -/
inductive Call where
  | doesEntryExist (date : String)
  | printAllEntryDates
  | deleteDiaryEntry (date : String)
  | viewDiaryEntry (date : String)
  | addDiaryEntry (date : String) (entry : String)
deriving DecidableEq

/-- The state of the process inside the main loop. -/
structure Process where
  db : sqlite3
  /-- the unread standard input -/
  cin : List Char
  /-- everything written so far -/
  out : List Event
  /-- the store functions called so far -/
  calls : List Call
deriving DecidableEq

/-- The C string a pointer `lit + k` into the array of a string literal denotes. Inside the
array it is the rest of the literal; past its end it is whatever bytes lie there, `stray`. -/
def literalPlus (lit : String) (k : Nat) (stray : String) : String :=
  if k ≤ lit.length then ⟨lit.data.drop k⟩ else stray

/-- The operand `"" + MENU_EXIT` of lines 240 and 254: the `char` is promoted to `int` and
added to the address of the literal. -/
def exitOperand (stray : String) : String := literalPlus "" MENU_EXIT.toNat stray

def menuPrompt : String :=
  "Write entry (W), delete entry (D), read entries (R) or quit (Q)?!\n"
def deletePrompt : String := "Write date of entry to delete (YYYY-MM-DD) or exit (E)!\n"
def readPrompt : String := "Write date of entry to read (YYYY-MM-DD) or exit (E)!\n"
def entryPrompt : String := "Enter your diary entry (and save with ENTER): \n"

/-- The menu loop of lines 205-212, entered with `menu`. -/
def menuLoop : Nat → Char → List Char → List Event → Option (Char × List Char × List Event)
  | 0, _, _, _ => none
  | fuel + 1, menu, cin, out =>
    if menu ≠ MENU_WRITE ∧ menu ≠ MENU_READ ∧ menu ≠ MENU_DELETE ∧ menu ≠ MENU_QUIT then
      match readWord cin with
      | (input, cin1) =>
        menuLoop fuel (toupperFirst input) cin1
          (out ++ [Event.cout menuPrompt, Event.cout "\n"])
    else some (menu, cin, out)

/-- What one pass of the loop does once `menu` is chosen (lines 214-266). The result is
`none` when the fuel runs out, an error when an exception leaves `main`, else the value
of `quit` and the new state. -/
def dispatch (fuel : Nat) (localtime : Option tm) (stray : String) (menu : Char)
    (p : Process) : Option (Except String (Bool × Process)) :=
  if menu = MENU_WRITE then
    match getCurrentDate localtime with
    | Except.error e => some (Except.error e)
    | Except.ok date =>
      match doesEntryExist p.db date with
      | (true, db1) =>
        -- `continue`: line 266 is skipped
        some (Except.ok (false,
          { db := db1, cin := p.cin,
            out := p.out ++ [Event.cout "Entry already exists. \n\n"],
            calls := p.calls ++ [Call.doesEntryExist date] }))
      | (false, db1) =>
        match getline (ignoreLine p.cin) with
        | (entry, cin1) =>
          match addDiaryEntry db1 date entry with
          | (db2, written) =>
            some (Except.ok (false,
              { db := db2, cin := cin1,
                out := p.out ++ [Event.cout entryPrompt] ++ written ++ [Event.cout "\n"],
                calls := p.calls ++ [Call.doesEntryExist date, Call.addDiaryEntry date entry] }))
  else if menu = MENU_DELETE then
    match printAllEntryDates fuel p.db with
    | none => none
    | some (db1, listed, _) =>
      match readWord p.cin with
      | (date, cin1) =>
        if date ≠ exitOperand stray then
          match deleteDiaryEntry db1 date with
          | (db2, written) =>
            some (Except.ok (false,
              { db := db2, cin := cin1,
                out := p.out ++ listed ++ [Event.cout deletePrompt] ++ written ++ [Event.cout "\n"],
                calls := p.calls ++ [Call.printAllEntryDates, Call.deleteDiaryEntry date] }))
        else
          some (Except.ok (false,
            { db := db1, cin := cin1,
              out := p.out ++ listed ++ [Event.cout deletePrompt] ++ [Event.cout "\n"],
              calls := p.calls ++ [Call.printAllEntryDates] }))
  else if menu = MENU_READ then
    match printAllEntryDates fuel p.db with
    | none => none
    | some (db1, listed, _) =>
      match readWord p.cin with
      | (date, cin1) =>
        if date ≠ exitOperand stray then
          match viewDiaryEntry db1 date with
          | (db2, written) =>
            some (Except.ok (false,
              { db := db2, cin := cin1,
                out := p.out ++ listed ++ [Event.cout readPrompt] ++ written ++ [Event.cout "\n"],
                calls := p.calls ++ [Call.printAllEntryDates, Call.viewDiaryEntry date] }))
        else
          some (Except.ok (false,
            { db := db1, cin := cin1,
              out := p.out ++ listed ++ [Event.cout readPrompt] ++ [Event.cout "\n"],
              calls := p.calls ++ [Call.printAllEntryDates] }))
  else if menu = MENU_QUIT then
    some (Except.ok (true, { p with out := p.out ++ [Event.cout "\n"] }))
  else
    some (Except.ok (false, { p with out := p.out ++ [Event.cout "\n"] }))

/-- One pass of the main loop (the body of lines 200-267). -/
def mainPass (fuel : Nat) (localtime : Option tm) (stray : String) (p : Process) :
    Option (Except String (Bool × Process)) :=
  match menuLoop fuel 'l' p.cin p.out with
  | none => none
  | some (menu, cin1, out1) =>
    dispatch fuel localtime stray menu { p with cin := cin1, out := out1 }

/-- The main loop `while (!quit)`; `clock n` is the local time `n` passes from now. -/
def mainLoop : Nat → (Nat → Option tm) → String → Process → Option (Except String Process)
  | 0, _, _, _ => none
  | fuel + 1, clock, stray, p =>
    match mainPass (fuel + 1) (clock 0) stray p with
    | none => none
    | some (Except.error e) => some (Except.error e)
    | some (Except.ok (true, p1)) => some (Except.ok p1)
    | some (Except.ok (false, p1)) => mainLoop fuel (fun n => clock (n + 1)) stray p1

/-- The function `main` once the database is open and the table exists (lines 196-271), on
the rows `file` already stored: the final state and what `sqlite3_close` returns. -/
def main (fuel : Nat) (clock : Nat → Option tm) (stray : String) (file : List Row)
    (cin : List Char) : Option (Except String (Process × Int)) :=
  match mainLoop fuel clock stray ⟨⟨file, 0, ""⟩, cin, [Event.cout "Diary++\n\n"], []⟩ with
  | none => none
  | some (Except.error e) => some (Except.error e)
  | some (Except.ok p) => some (Except.ok (p, sqlite3_close p.db))

/-! ## Reachable stores -/

/-- A call of one of the five store functions, with its arguments. -/
inductive Op where
  | add (date : String) (entry : String)
  | delete (date : String)
  | view (date : String)
  | exist (date : String)
  | list
deriving DecidableEq

/-- The connection after a call (`list` is run with the fuel it needs). -/
def Op.run (db : sqlite3) : Op → sqlite3
  | Op.add date entry => (addDiaryEntry db date entry).1
  | Op.delete date => (deleteDiaryEntry db date).1
  | Op.view date => (viewDiaryEntry db date).1
  | Op.exist date => (doesEntryExist db date).2
  | Op.list =>
    match printAllEntryDates (db.Diary.length + 1) db with
    | some r => r.1
    | none => db

/-- The connection after a sequence of calls. -/
def runOps (db : sqlite3) (ops : List Op) : sqlite3 := ops.foldl Op.run db

/-- The empty store on a fresh connection. -/
def emptyStore : sqlite3 := ⟨[], 0, ""⟩

/-- Calls that are insertions or deletions. -/
def Op.isWrite : Op → Bool
  | Op.add _ _ => true
  | Op.delete _ => true
  | _ => false

/-! ## The engine on the five statements -/

theorem c_str_of_NulFree (s : String) (h : NulFree s) : c_str s = s := by
  unfold c_str
  have : s.data.takeWhile (fun c => c != NUL) = s.data := by
    rw [List.takeWhile_eq_self_iff]
    intro c hc
    have : c ≠ NUL := fun e => h (e ▸ hc)
    simpa using this
  rw [this]

/-- A string with a NUL inside reaches SQLite cut at the NUL. -/
theorem c_str_stops_at_NUL : c_str "Had\x00 coffee." = "Had" := by decide

theorem compile_checkEntrySQL : compile checkEntrySQL = some Sql.countByDate := by decide
theorem compile_selectDatesSQL : compile selectDatesSQL = some Sql.selectDates := by decide
theorem compile_deleteSQL : compile deleteSQL = some Sql.deleteByDate := by decide
theorem compile_selectSQL : compile selectSQL = some Sql.selectEntry := by decide
theorem compile_insertSQL : compile insertSQL = some Sql.insertRow := by decide

theorem dateIs_some (date : String) : dateIs (some date) = fun r => r.Date == date := by
  funext r
  by_cases h : r.Date = date
  · simp [dateIs, h]
  · have : ¬ date = r.Date := fun e => h e.symm
    simp [dateIs, h, this]

theorem count_pos_eq_any {α : Type} (p : α → Bool) (l : List α) :
    decide (0 < (l.filter p).length) = l.any p := by
  induction l with
  | nil => simp
  | cons a t ih =>
    by_cases h : p a = true
    · simp [List.filter, h]
    · simp only [Bool.not_eq_true] at h
      simp [List.filter, h, ih]

theorem doesEntryExist_eq (db : sqlite3) (date : String) :
    doesEntryExist db date = (stored db (c_str date), { db with stmts := db.stmts + 1 }) := by
  simp [doesEntryExist, sqlite3_prepare_v2, compile_checkEntrySQL, sqlite3_bind_text,
    sqlite3_step, execute, fetch, sqlite3_column_int, stored, SQLITE_OK, SQLITE_ROW,
    dateIs_some]
  have := count_pos_eq_any (fun r : Row => r.Date == c_str date) db.Diary
  simpa using this

theorem addDiaryEntry_eq (db : sqlite3) (date entry : String) :
    addDiaryEntry db date entry =
      if stored db (c_str date) then
        ({ db with errmsg := "UNIQUE constraint failed: Diary.Date" },
          [Event.cerr ("Insert failed: " ++ "UNIQUE constraint failed: Diary.Date" ++ "\n"),
           Event.cout (SUCCESS_ENTRY_ADDED ++ "\n")])
      else
        ({ db with Diary := db.Diary ++ [⟨c_str date, c_str entry⟩] },
          [Event.cout (SUCCESS_ENTRY_ADDED ++ "\n")]) := by
  by_cases h : stored db (c_str date) = true
  · have h2 := h
    simp only [stored] at h2
    simp [addDiaryEntry, sqlite3_prepare_v2, compile_insertSQL, sqlite3_bind_text,
      sqlite3_step, execute, fetch, SQLITE_OK, SQLITE_DONE, SQLITE_CONSTRAINT,
      sqlite3_finalize, h]
    split <;> simp_all
  · simp only [Bool.not_eq_true] at h
    have h2 : ¬ ∃ x ∈ db.Diary, x.Date = c_str date := by
      simpa [stored] using h
    simp [addDiaryEntry, sqlite3_prepare_v2, compile_insertSQL, sqlite3_bind_text,
      sqlite3_step, execute, fetch, SQLITE_OK, SQLITE_DONE, SQLITE_CONSTRAINT,
      sqlite3_finalize, h, h2]

/-- An insert for a stored date keeps the table and still prints the success message. -/
theorem addDiaryEntry_stored (db : sqlite3) (date entry : String)
    (h : stored db (c_str date) = true) :
    (addDiaryEntry db date entry).1.Diary = db.Diary ∧
    (addDiaryEntry db date entry).2 =
      [Event.cerr ("Insert failed: " ++ "UNIQUE constraint failed: Diary.Date" ++ "\n"),
       Event.cout (SUCCESS_ENTRY_ADDED ++ "\n")] := by
  rw [addDiaryEntry_eq, h]
  simp

/-- Every call of `doesEntryExist` leaves one more statement that is not finalized. -/
theorem doesEntryExist_stmts (db : sqlite3) (date : String) :
    (doesEntryExist db date).2.stmts = db.stmts + 1 := by
  rw [doesEntryExist_eq]

theorem deleteDiaryEntry_eq (db : sqlite3) (date : String) :
    deleteDiaryEntry db date =
      if stored db (c_str date) then
        ({ db with Diary := db.Diary.filter (fun r => !(r.Date == c_str date)),
                   stmts := db.stmts + 1 },
          [Event.cout (SUCCESS_ENTRY_DELETED ++ "\n")])
      else
        ({ db with stmts := db.stmts + 1 }, [Event.cout (ENTRY_DOES_NOT_EXIST ++ "\n")]) := by
  rw [deleteDiaryEntry, doesEntryExist_eq]
  by_cases h : stored db (c_str date) = true
  · simp [h, sqlite3_prepare_v2, compile_deleteSQL, sqlite3_bind_text,
      sqlite3_step, execute, fetch, SQLITE_OK, SQLITE_DONE, sqlite3_finalize, dateIs_some]
  · simp only [Bool.not_eq_true] at h
    simp [h]

theorem viewDiaryEntry_eq (db : sqlite3) (date : String) :
    viewDiaryEntry db date =
      match db.Diary.filter (fun r => r.Date == c_str date) with
      | r :: _ => (db, [Event.cout ("Date: " ++ date ++ "\nEntry: " ++ r.Entry ++ "\n")])
      | [] => (db, [Event.cout (NO_ENTRY_FOUND ++ "\n")]) := by
  cases hf : db.Diary.filter (fun r => r.Date == c_str date) with
  | nil =>
    simp [viewDiaryEntry, sqlite3_prepare_v2, compile_selectSQL, sqlite3_bind_text,
      sqlite3_step, execute, fetch, SQLITE_OK, SQLITE_DONE, SQLITE_ROW, sqlite3_finalize,
      dateIs_some, hf]
  | cons r rest =>
    simp [viewDiaryEntry, sqlite3_prepare_v2, compile_selectSQL, sqlite3_bind_text,
      sqlite3_step, execute, fetch, SQLITE_OK, SQLITE_DONE, SQLITE_ROW, sqlite3_finalize,
      dateIs_some, hf, sqlite3_column_text]

theorem printLoop_started (rows : List Row) (fuel : Nat) (db : sqlite3) (stmt : sqlite3_stmt)
    (printed : List String) (hfuel : rows.length < fuel)
    (hp : stmt.pending = some (rows.map (fun r => [Value.text r.Date]))) :
    ∃ stmt1, printLoop fuel db stmt printed = some (db, stmt1, printed ++ rows.map Row.Date) := by
  induction rows generalizing fuel stmt printed with
  | nil =>
    cases fuel with
    | zero => simp at hfuel
    | succ fuel =>
      simp at hp
      simp [printLoop, sqlite3_step, fetch, hp, SQLITE_DONE, SQLITE_ROW]
  | cons r rest ih =>
    cases fuel with
    | zero => simp at hfuel
    | succ fuel =>
      simp at hp hfuel
      simp only [printLoop, sqlite3_step, fetch, hp, SQLITE_ROW, if_true]
      obtain ⟨stmt1, h1⟩ := ih fuel
        { stmt with pending := some (rest.map (fun r => [Value.text r.Date])),
                    row := [Value.text r.Date] }
        (printed ++ [r.Date]) hfuel rfl
      refine ⟨stmt1, ?_⟩
      simpa [sqlite3_column_text] using h1

theorem step_selectDates_first (db : sqlite3) (stmt : sqlite3_stmt)
    (hs : stmt.sql = Sql.selectDates) (hp : stmt.pending = none) :
    sqlite3_step db stmt =
      sqlite3_step db { stmt with pending := some (db.Diary.map (fun r => [Value.text r.Date])) } := by
  simp [sqlite3_step, execute, hs, hp, SQLITE_OK]

theorem printAllEntryDates_eq (fuel : Nat) (db : sqlite3) (hfuel : db.Diary.length < fuel) :
    printAllEntryDates fuel db =
      some (db,
        [Event.cout "Dates of Diary Entries:\n"]
          ++ (db.Diary.map Row.Date).map (fun date => Event.cout (date ++ "\n"))
          ++ [Event.cout "\n"],
        db.Diary.map Row.Date) := by
  cases fuel with
  | zero => simp at hfuel
  | succ fuel =>
    have hstart := printLoop_started db.Diary (fuel + 1) { db with stmts := db.stmts + 1 }
      ⟨Sql.selectDates, none, none, some (db.Diary.map (fun r => [Value.text r.Date])), []⟩
      [] hfuel rfl
    obtain ⟨stmt1, h1⟩ := hstart
    have h0 : printLoop (fuel + 1) { db with stmts := db.stmts + 1 }
        ⟨Sql.selectDates, none, none, none, []⟩ [] =
        some ({ db with stmts := db.stmts + 1 }, stmt1, [] ++ db.Diary.map Row.Date) := by
      rw [← h1]
      simp only [printLoop]
      rw [step_selectDates_first _ _ rfl rfl]
    simp [printAllEntryDates, sqlite3_prepare_v2, compile_selectDatesSQL, h0, sqlite3_finalize]

theorem stored_eq_false_iff (db : sqlite3) (date : String) :
    stored db date = false ↔ ∀ r ∈ db.Diary, r.Date ≠ date := by
  simp [stored]

theorem stored_eq_true_iff (db : sqlite3) (date : String) :
    stored db date = true ↔ ∃ r ∈ db.Diary, r.Date = date := by
  simp [stored]

theorem Op.run_Diary (db : sqlite3) (op : Op) :
    (op.run db).Diary = db.Diary ∨
    (∃ date entry, stored db date = false ∧ (op.run db).Diary = db.Diary ++ [⟨date, entry⟩]) ∨
    (∃ date, (op.run db).Diary = db.Diary.filter (fun r => !(r.Date == date))) := by
  cases op with
  | add date entry =>
    simp only [Op.run, addDiaryEntry_eq]
    by_cases h : stored db (c_str date) = true
    · left; simp [h]
    · simp only [Bool.not_eq_true] at h
      right; left
      exact ⟨c_str date, c_str entry, h, by simp [h]⟩
  | delete date =>
    simp only [Op.run, deleteDiaryEntry_eq]
    by_cases h : stored db (c_str date) = true
    · right; right
      exact ⟨c_str date, by simp [h]⟩
    · simp only [Bool.not_eq_true] at h
      left; simp [h]
  | view date =>
    left
    simp only [Op.run, viewDiaryEntry_eq]
    split <;> rfl
  | exist date =>
    left
    simp [Op.run, doesEntryExist_eq]
  | list =>
    left
    simp [Op.run, printAllEntryDates_eq (db.Diary.length + 1) db (Nat.lt_succ_self _)]

theorem Op.run_nodup (db : sqlite3) (op : Op) (h : (db.Diary.map Row.Date).Nodup) :
    ((op.run db).Diary.map Row.Date).Nodup := by
  rcases Op.run_Diary db op with h1 | ⟨date, entry, hs, h1⟩ | ⟨date, h1⟩
  · rw [h1]; exact h
  · rw [h1, List.map_append, List.nodup_append]
    refine ⟨h, by simp, ?_⟩
    intro x hx hx2
    simp only [List.map_cons, List.map_nil, List.mem_singleton] at hx2
    obtain ⟨r, hr, rfl⟩ := List.mem_map.1 hx
    exact (stored_eq_false_iff db date).1 hs r hr hx2
  · rw [h1]
    exact h.sublist (List.Sublist.map _ (List.filter_sublist _))

theorem runOps_nodup (ops : List Op) (db : sqlite3) (h : (db.Diary.map Row.Date).Nodup) :
    ((runOps db ops).Diary.map Row.Date).Nodup := by
  induction ops generalizing db with
  | nil => exact h
  | cons op rest ih => exact ih (op.run db) (Op.run_nodup db op h)

/-! ## Date formatting -/

theorem digit_ne_NUL (n : Nat) : digit n ≠ NUL := by
  unfold digit
  have h : n % 10 < 10 := Nat.mod_lt _ (by decide)
  interval_cases (n % 10) <;> decide

theorem decimalAux_four (fuel n : Nat) (acc : List Char) (hfuel : 4 ≤ fuel)
    (hlo : 1000 ≤ n) (hhi : n ≤ 9999) :
    decimalAux fuel n acc =
      digit (n / 10 / 10 / 10) :: digit (n / 10 / 10) :: digit (n / 10) :: digit n :: acc := by
  obtain ⟨f, rfl⟩ : ∃ f, fuel = f + 1 + 1 + 1 + 1 := ⟨fuel - 4, by omega⟩
  have h1 : ¬ n < 10 := by omega
  have h2 : ¬ n / 10 < 10 := by omega
  have h3 : ¬ n / 10 / 10 < 10 := by omega
  have h4 : n / 10 / 10 / 10 < 10 := by omega
  simp only [decimalAux, h1, h2, h3, h4, if_true, if_false]

theorem decimal_four (n : Nat) (hlo : 1000 ≤ n) (hhi : n ≤ 9999) :
    decimal n = zeroPadded 4 n := by
  unfold decimal
  rw [decimalAux_four (n + 1) n [] (by omega) hlo hhi]
  simp [zeroPadded]

theorem conv_02_eq (n : Nat) : conv_02 (n : Int) = zeroPadded 2 n := by
  simp [conv_02, zeroPadded]

theorem zeroPadded_length (k n : Nat) : (zeroPadded k n).length = k := by
  induction k generalizing n with
  | zero => rfl
  | succ k ih => simp [zeroPadded, ih]

theorem zeroPadded_NulFree (k n : Nat) : NUL ∉ zeroPadded k n := by
  induction k generalizing n with
  | zero => simp [zeroPadded]
  | succ k ih =>
    simp only [zeroPadded, List.mem_append, List.mem_singleton, not_or]
    exact ⟨ih _, fun h => digit_ne_NUL n h.symm⟩

theorem isoKey_NulFree (y m d : Nat) : NulFree (isoKey y m d) := by
  have h : NUL ≠ '-' := by decide
  simp only [NulFree, isoKey, List.mem_append, List.mem_singleton, not_or]
  exact ⟨⟨⟨⟨zeroPadded_NulFree _ _, h⟩, zeroPadded_NulFree _ _⟩, h⟩, zeroPadded_NulFree _ _⟩

theorem strftime_date (y m d : Nat) (hlo : 1000 ≤ y) (hhi : y ≤ 9999) :
    strftime 11 DATE_FORMAT ⟨(y : Int) - 1900, (m : Int) - 1, (d : Int)⟩ = (10, isoKey y m d) := by
  have hy : ¬ ((y : Int) - 1900 + 1900 < 0) := by omega
  have hy2 : ((y : Int) - 1900 + 1900).toNat = y := by omega
  have hm : (m : Int) - 1 + 1 = (m : Int) := by omega
  have hexp : expand ⟨(y : Int) - 1900, (m : Int) - 1, (d : Int)⟩ DATE_FORMAT.data =
      zeroPadded 4 y ++ ['-'] ++ zeroPadded 2 m ++ ['-'] ++ zeroPadded 2 d := by
    simp [DATE_FORMAT, expand, conv_Y, hy, hy2, hm, conv_02_eq, decimal_four y hlo hhi]
  simp [strftime, hexp, isoKey, zeroPadded_length]

/-! ## One pass of the main loop -/

theorem dispatch_write (fuel : Nat) (localtime : Option tm) (stray : String) (p : Process)
    (today : String) (htoday : getCurrentDate localtime = Except.ok today) :
    dispatch fuel localtime stray MENU_WRITE p = some (Except.ok (false,
      if stored p.db (c_str today) then
        { db := { p.db with stmts := p.db.stmts + 1 }, cin := p.cin,
          out := p.out ++ [Event.cout "Entry already exists. \n\n"],
          calls := p.calls ++ [Call.doesEntryExist today] }
      else
        { db := (addDiaryEntry { p.db with stmts := p.db.stmts + 1 } today
                  (getline (ignoreLine p.cin)).1).1,
          cin := (getline (ignoreLine p.cin)).2,
          out := p.out ++ [Event.cout entryPrompt]
            ++ (addDiaryEntry { p.db with stmts := p.db.stmts + 1 } today
                  (getline (ignoreLine p.cin)).1).2 ++ [Event.cout "\n"],
          calls := p.calls ++ [Call.doesEntryExist today,
            Call.addDiaryEntry today (getline (ignoreLine p.cin)).1] })) := by
  by_cases h : stored p.db (c_str today) = true
  · simp only [dispatch, htoday, doesEntryExist_eq, h, if_true]
  · simp only [Bool.not_eq_true] at h
    simp [dispatch, htoday, doesEntryExist_eq, h]

theorem exitOperand_eq (stray : String) : exitOperand stray = stray := by
  have h : ¬ (MENU_EXIT.toNat ≤ "".length) := by decide
  unfold exitOperand literalPlus
  rw [if_neg h]

theorem dispatch_delete (fuel : Nat) (localtime : Option tm) (stray : String) (p : Process)
    (hfuel : p.db.Diary.length < fuel) (hdate : (readWord p.cin).1 ≠ stray) :
    dispatch fuel localtime stray MENU_DELETE p = some (Except.ok (false,
      { db := (deleteDiaryEntry p.db (readWord p.cin).1).1,
        cin := (readWord p.cin).2,
        out := p.out ++ ([Event.cout "Dates of Diary Entries:\n"]
            ++ (p.db.Diary.map Row.Date).map (fun date => Event.cout (date ++ "\n"))
            ++ [Event.cout "\n"])
          ++ [Event.cout deletePrompt]
          ++ (deleteDiaryEntry p.db (readWord p.cin).1).2 ++ [Event.cout "\n"],
        calls := p.calls ++ [Call.printAllEntryDates,
          Call.deleteDiaryEntry (readWord p.cin).1] })) := by
  have h1 : MENU_DELETE ≠ MENU_WRITE := by decide
  simp [dispatch, h1, printAllEntryDates_eq fuel p.db hfuel, exitOperand_eq, hdate]

theorem dispatch_read (fuel : Nat) (localtime : Option tm) (stray : String) (p : Process)
    (hfuel : p.db.Diary.length < fuel) (hdate : (readWord p.cin).1 ≠ stray) :
    dispatch fuel localtime stray MENU_READ p = some (Except.ok (false,
      { db := (viewDiaryEntry p.db (readWord p.cin).1).1,
        cin := (readWord p.cin).2,
        out := p.out ++ ([Event.cout "Dates of Diary Entries:\n"]
            ++ (p.db.Diary.map Row.Date).map (fun date => Event.cout (date ++ "\n"))
            ++ [Event.cout "\n"])
          ++ [Event.cout readPrompt]
          ++ (viewDiaryEntry p.db (readWord p.cin).1).2 ++ [Event.cout "\n"],
        calls := p.calls ++ [Call.printAllEntryDates,
          Call.viewDiaryEntry (readWord p.cin).1] })) := by
  have h1 : MENU_READ ≠ MENU_WRITE := by decide
  have h2 : MENU_READ ≠ MENU_DELETE := by decide
  simp [dispatch, h1, h2, printAllEntryDates_eq fuel p.db hfuel, exitOperand_eq, hdate]

/-! ## The claims -/

/-- C1: for every store, every date text `d` with no stored row and every body text (the
empty text and texts with newlines among them; a text has no NUL character),
`doesEntryExist d` is false, and `addDiaryEntry d body` succeeds: it writes no failure
message and appends the row; afterwards `doesEntryExist d` is true and `viewDiaryEntry d`
prints exactly `body` as the entry. -/
theorem C1_insert_then_exists_and_view (db : sqlite3) (d body : String)
    (hd : NulFree d) (hbody : NulFree body) (hnew : ∀ r ∈ db.Diary, r.Date ≠ d) :
    (doesEntryExist db d).1 = false ∧
    addDiaryEntry db d body =
      ({ db with Diary := db.Diary ++ [⟨d, body⟩] }, [Event.cout (SUCCESS_ENTRY_ADDED ++ "\n")]) ∧
    (doesEntryExist (addDiaryEntry db d body).1 d).1 = true ∧
    (viewDiaryEntry (addDiaryEntry db d body).1 d).2 =
      [Event.cout ("Date: " ++ d ++ "\nEntry: " ++ body ++ "\n")] := by
  have hs : stored db d = false := (stored_eq_false_iff db d).2 hnew
  have hf : db.Diary.filter (fun r => r.Date == d) = [] := by
    rw [List.filter_eq_nil_iff]
    intro r hr
    simpa using hnew r hr
  have hadd : addDiaryEntry db d body =
      ({ db with Diary := db.Diary ++ [⟨d, body⟩] },
        [Event.cout (SUCCESS_ENTRY_ADDED ++ "\n")]) := by
    rw [addDiaryEntry_eq, c_str_of_NulFree d hd, c_str_of_NulFree body hbody, hs]
    simp
  refine ⟨?_, hadd, ?_, ?_⟩
  · rw [doesEntryExist_eq, c_str_of_NulFree d hd]
    exact hs
  · rw [doesEntryExist_eq, c_str_of_NulFree d hd, hadd]
    simp [stored]
  · rw [viewDiaryEntry_eq, c_str_of_NulFree d hd, hadd]
    simp [List.filter_append, hf]

/-- Witness of C1: a body of two lines written for a new date next to a stored entry. -/
theorem C1_insert_then_exists_and_view_witness :
    (viewDiaryEntry (addDiaryEntry ⟨[⟨"2024-01-01", "Had coffee."⟩], 0, ""⟩
        "2024-01-02" "Rain.\nStayed in.").1 "2024-01-02").2 =
      [Event.cout ("Date: " ++ "2024-01-02" ++ "\nEntry: " ++ "Rain.\nStayed in." ++ "\n")] :=
  (C1_insert_then_exists_and_view ⟨[⟨"2024-01-01", "Had coffee."⟩], 0, ""⟩
    "2024-01-02" "Rain.\nStayed in." (by decide) (by decide) (by decide)).2.2.2

/-- C2 (evaluation at the failing input): a second `addDiaryEntry` for a stored date leaves
the stored row as it was and writes the failure message to `std::cerr`, but then it writes
"Diary entry added successfully." to `std::cout`. -/
theorem C2_second_insert_reports_success :
    addDiaryEntry (addDiaryEntry emptyStore "2024-01-01" "Had coffee.").1
        "2024-01-01" "Second try" =
      (⟨[⟨"2024-01-01", "Had coffee."⟩], 0, "UNIQUE constraint failed: Diary.Date"⟩,
        [Event.cerr "Insert failed: UNIQUE constraint failed: Diary.Date\n",
         Event.cout "Diary entry added successfully.\n"]) := by
  rfl

/-- C3: for every store and every date text `d` with a stored row, `deleteDiaryEntry d`
prints the deleted-successfully message; afterwards `doesEntryExist d` is false,
`viewDiaryEntry d` prints the no-entry-found message, and the table holds exactly the
rows of the other dates, as they were and in their order. -/
theorem C3_delete_stored (db : sqlite3) (d : String) (hd : NulFree d)
    (hrow : ∃ r ∈ db.Diary, r.Date = d) :
    (deleteDiaryEntry db d).2 = [Event.cout (SUCCESS_ENTRY_DELETED ++ "\n")] ∧
    (doesEntryExist (deleteDiaryEntry db d).1 d).1 = false ∧
    (viewDiaryEntry (deleteDiaryEntry db d).1 d).2 = [Event.cout (NO_ENTRY_FOUND ++ "\n")] ∧
    (deleteDiaryEntry db d).1.Diary = db.Diary.filter (fun r => decide (r.Date ≠ d)) := by
  have hs : stored db d = true := (stored_eq_true_iff db d).2 hrow
  have hdel : deleteDiaryEntry db d =
      ({ db with Diary := db.Diary.filter (fun r => !(r.Date == d)), stmts := db.stmts + 1 },
        [Event.cout (SUCCESS_ENTRY_DELETED ++ "\n")]) := by
    rw [deleteDiaryEntry_eq, c_str_of_NulFree d hd, hs]
    simp
  refine ⟨by rw [hdel], ?_, ?_, ?_⟩
  · rw [doesEntryExist_eq, c_str_of_NulFree d hd, hdel]
    simp [stored]
  · rw [viewDiaryEntry_eq, c_str_of_NulFree d hd, hdel]
    simp [List.filter_filter]
  · rw [hdel]
    apply congrArg (fun f => List.filter f db.Diary)
    funext r
    by_cases h : r.Date = d <;> simp [h]

/-- Witness of C3: deleting one of two stored entries. -/
theorem C3_delete_stored_witness :
    (deleteDiaryEntry ⟨[⟨"2024-01-01", "Had coffee."⟩, ⟨"2024-01-02", "Rain."⟩], 0, ""⟩
        "2024-01-01").1.Diary =
      [⟨"2024-01-01", "Had coffee."⟩, ⟨"2024-01-02", "Rain."⟩].filter
        (fun r => decide (r.Date ≠ "2024-01-01")) :=
  (C3_delete_stored ⟨[⟨"2024-01-01", "Had coffee."⟩, ⟨"2024-01-02", "Rain."⟩], 0, ""⟩
    "2024-01-01" (by decide) ⟨⟨"2024-01-01", "Had coffee."⟩, by simp, rfl⟩).2.2.2

/-- C4: for every store and every date text `d` with no stored row, `deleteDiaryEntry d`
prints the does-not-exist message (neither the deleted message nor a failure) and leaves
the table as it was, so `printAllEntryDates` prints the same dates before and after. -/
theorem C4_delete_absent (db : sqlite3) (d : String) (fuel : Nat) (hd : NulFree d)
    (habsent : ∀ r ∈ db.Diary, r.Date ≠ d) (hfuel : db.Diary.length < fuel) :
    (deleteDiaryEntry db d).2 = [Event.cout (ENTRY_DOES_NOT_EXIST ++ "\n")] ∧
    (deleteDiaryEntry db d).1.Diary = db.Diary ∧
    ∃ before after,
      printAllEntryDates fuel db = some before ∧
      printAllEntryDates fuel (deleteDiaryEntry db d).1 = some after ∧
      after.2 = before.2 := by
  have hs : stored db d = false := (stored_eq_false_iff db d).2 habsent
  have hdel : deleteDiaryEntry db d =
      ({ db with stmts := db.stmts + 1 }, [Event.cout (ENTRY_DOES_NOT_EXIST ++ "\n")]) := by
    rw [deleteDiaryEntry_eq, c_str_of_NulFree d hd, hs]
    simp
  refine ⟨by rw [hdel], by rw [hdel], ?_⟩
  rw [hdel, printAllEntryDates_eq fuel db hfuel,
    printAllEntryDates_eq fuel { db with stmts := db.stmts + 1 } hfuel]
  exact ⟨_, _, rfl, rfl, rfl⟩

/-- Witness of C4: deleting a date that is not stored. -/
theorem C4_delete_absent_witness :
    (deleteDiaryEntry ⟨[⟨"2024-01-01", "Had coffee."⟩], 0, ""⟩ "2024-01-02").1.Diary =
      [⟨"2024-01-01", "Had coffee."⟩] :=
  (C4_delete_absent ⟨[⟨"2024-01-01", "Had coffee."⟩], 0, ""⟩ "2024-01-02" 2
    (by decide) (by decide) (by decide)).2.1

/-- C5: in every store reached from the empty store by calls of `addDiaryEntry` and
`deleteDiaryEntry`, and for every date text `d`: `printAllEntryDates` returns, and `d` is
among the dates it prints if and only if `doesEntryExist d` is true. -/
theorem C5_listed_iff_exists (ops : List Op) (d : String) (fuel : Nat)
    (_hops : ∀ op ∈ ops, op.isWrite = true) (hd : NulFree d)
    (hfuel : (runOps emptyStore ops).Diary.length < fuel) :
    ∃ r, printAllEntryDates fuel (runOps emptyStore ops) = some r ∧
      (d ∈ r.2.2 ↔ (doesEntryExist (runOps emptyStore ops) d).1 = true) := by
  refine ⟨_, printAllEntryDates_eq fuel _ hfuel, ?_⟩
  rw [doesEntryExist_eq, c_str_of_NulFree d hd]
  simp [stored]

/-- Witness of C5: two insertions and a deletion, asked about the date that was deleted. -/
theorem C5_listed_iff_exists_witness :
    ∃ r, printAllEntryDates 2 (runOps emptyStore
          [Op.add "2024-01-01" "Had coffee.", Op.add "2024-01-02" "Rain.",
           Op.delete "2024-01-01"]) = some r ∧
      ("2024-01-01" ∈ r.2.2 ↔
        (doesEntryExist (runOps emptyStore
          [Op.add "2024-01-01" "Had coffee.", Op.add "2024-01-02" "Rain.",
           Op.delete "2024-01-01"]) "2024-01-01").1 = true) :=
  C5_listed_iff_exists
    [Op.add "2024-01-01" "Had coffee.", Op.add "2024-01-02" "Rain.", Op.delete "2024-01-01"]
    "2024-01-01" 2 (by decide) (by decide) (by decide)

/-- C6: in every store reached from the empty store by calls of the five store functions,
with any dates and bodies, no two rows have the same date, and `printAllEntryDates`
returns and prints no date twice. -/
theorem C6_dates_unique (ops : List Op) (fuel : Nat)
    (hfuel : (runOps emptyStore ops).Diary.length < fuel) :
    ((runOps emptyStore ops).Diary.map Row.Date).Nodup ∧
    ∃ r, printAllEntryDates fuel (runOps emptyStore ops) = some r ∧ r.2.2.Nodup := by
  have h := runOps_nodup ops emptyStore (by simp [emptyStore])
  exact ⟨h, _, printAllEntryDates_eq fuel _ hfuel, h⟩

/-- Witness of C6: the same date is inserted twice, with calls of every function between. -/
theorem C6_dates_unique_witness :
    ((runOps emptyStore
        [Op.add "2024-01-01" "Had coffee.", Op.exist "2024-01-01", Op.list,
         Op.add "2024-01-01" "Second try", Op.view "2024-01-01", Op.add "2024-01-02" "Rain.",
         Op.delete "2024-01-03"]).Diary.map Row.Date).Nodup :=
  (C6_dates_unique
    [Op.add "2024-01-01" "Had coffee.", Op.exist "2024-01-01", Op.list,
     Op.add "2024-01-01" "Second try", Op.view "2024-01-01", Op.add "2024-01-02" "Rain.",
     Op.delete "2024-01-03"] 3 (by decide)).1

/-- C7: in a pass of the main loop in which the menu loop ends with the write command and
`getCurrentDate` returns `today`: the pass ends without quitting; if `doesEntryExist today`
is true it calls nothing else, prints "Entry already exists. ", reads nothing more from the
input and leaves the table as it was; a call of `addDiaryEntry` is made only if
`doesEntryExist today` is false, and then it is made, for `today` and the line read. -/
theorem C7_write_inserts_only_if_absent (fuel : Nat) (localtime : Option tm) (stray : String)
    (p : Process) (today : String) (cin1 : List Char) (out1 : List Event)
    (htoday : getCurrentDate localtime = Except.ok today)
    (hmenu : menuLoop fuel 'l' p.cin p.out = some (MENU_WRITE, cin1, out1)) :
    ∃ q, mainPass fuel localtime stray p = some (Except.ok (false, q)) ∧
      ((doesEntryExist p.db today).1 = true →
        q.calls = p.calls ++ [Call.doesEntryExist today] ∧
        q.out = out1 ++ [Event.cout "Entry already exists. \n\n"] ∧
        q.cin = cin1 ∧ q.db.Diary = p.db.Diary) ∧
      ((∃ date entry, Call.addDiaryEntry date entry ∈ q.calls.drop p.calls.length) →
        (doesEntryExist p.db today).1 = false) ∧
      ((doesEntryExist p.db today).1 = false →
        q.calls = p.calls ++ [Call.doesEntryExist today,
          Call.addDiaryEntry today (getline (ignoreLine cin1)).1]) := by
  refine ⟨_, by rw [mainPass, hmenu]; exact dispatch_write fuel localtime stray _ today htoday, ?_⟩
  by_cases h : stored p.db (c_str today) = true
  · simp [doesEntryExist_eq, h]
  · simp only [Bool.not_eq_true] at h
    simp [doesEntryExist_eq, h, addDiaryEntry_eq]

/-- Witness of C7: the write command on a day that has its entry. -/
theorem C7_write_inserts_only_if_absent_witness :
    ∃ q, mainPass 2 (some ⟨124, 0, 1⟩) ""
        ⟨⟨[⟨"2024-01-01", "Had coffee."⟩], 0, ""⟩, "w\nAgain.\n".data, [], []⟩ =
          some (Except.ok (false, q)) ∧
      q.calls = [] ++ [Call.doesEntryExist "2024-01-01"] ∧
      q.cin = "\nAgain.\n".data ∧
      q.db.Diary = [⟨"2024-01-01", "Had coffee."⟩] :=
  match C7_write_inserts_only_if_absent 2 (some ⟨124, 0, 1⟩) ""
      ⟨⟨[⟨"2024-01-01", "Had coffee."⟩], 0, ""⟩, "w\nAgain.\n".data, [], []⟩ "2024-01-01"
      "\nAgain.\n".data [Event.cout menuPrompt, Event.cout "\n"] rfl rfl with
  | ⟨q, hq, hexists, _, _⟩ => ⟨q, hq, (hexists rfl).1, (hexists rfl).2.2.1, (hexists rfl).2.2.2⟩

/-- C8: for every calendar date with a year from 1970 to 9999 that `localtime_s` yields,
`strftime` writes 10 characters into the buffer of 11 bytes (so it does not return 0) and
`getCurrentDate` returns the zero-padded 4-digit year, `-`, the zero-padded 2-digit month,
`-`, the zero-padded 2-digit day. -/
theorem C8_getCurrentDate_key (y m d : Nat) (hy : 1970 ≤ y ∧ y ≤ 9999)
    (_hm : 1 ≤ m ∧ m ≤ 12) (_hd : 1 ≤ d ∧ d ≤ 31) :
    strftime 11 DATE_FORMAT ⟨(y : Int) - 1900, (m : Int) - 1, (d : Int)⟩ = (10, isoKey y m d) ∧
    getCurrentDate (some ⟨(y : Int) - 1900, (m : Int) - 1, (d : Int)⟩) =
      Except.ok (isoKey y m d) := by
  have h := strftime_date y m d (by omega) hy.2
  refine ⟨h, ?_⟩
  simp [getCurrentDate, h, c_str_of_NulFree _ (isoKey_NulFree y m d)]

/-- Witness of C8: the first day of 2024. -/
theorem C8_getCurrentDate_key_witness :
    getCurrentDate (some ⟨((2024 : Nat) : Int) - 1900, ((1 : Nat) : Int) - 1, ((1 : Nat) : Int)⟩) =
      Except.ok (isoKey 2024 1 1) ∧ isoKey 2024 1 1 = "2024-01-01" :=
  ⟨(C8_getCurrentDate_key 2024 1 1 (by decide) (by decide) (by decide)).2, by decide⟩

/-- C9 (evaluation at the failing input): the operand `"" + MENU_EXIT` is the address of
the empty literal moved by 69 bytes, so it denotes the bytes `stray` that lie there and not
the text "E". Unless those bytes spell "E", answering the delete prompt or the read prompt
with "E" calls `deleteDiaryEntry "E"`, which prints the does-not-exist message, or
`viewDiaryEntry "E"`, which prints the no-entry-found message. -/
theorem C9_exit_token_reaches_the_store (stray : String) (hstray : stray ≠ "E") :
    mainPass 2 none stray ⟨emptyStore, "D\nE\n".data, [], []⟩ =
      some (Except.ok (false,
        ⟨⟨[], 1, ""⟩, "\n".data,
         [Event.cout menuPrompt, Event.cout "\n", Event.cout "Dates of Diary Entries:\n",
          Event.cout "\n", Event.cout deletePrompt,
          Event.cout "Diary entry does not exist.\n", Event.cout "\n"],
         [Call.printAllEntryDates, Call.deleteDiaryEntry "E"]⟩)) ∧
    mainPass 2 none stray ⟨emptyStore, "R\nE\n".data, [], []⟩ =
      some (Except.ok (false,
        ⟨⟨[], 0, ""⟩, "\n".data,
         [Event.cout menuPrompt, Event.cout "\n", Event.cout "Dates of Diary Entries:\n",
          Event.cout "\n", Event.cout readPrompt,
          Event.cout "No entry found for the specified date.\n", Event.cout "\n"],
         [Call.printAllEntryDates, Call.viewDiaryEntry "E"]⟩)) := by
  have hword : (readWord "\nE\n".data).1 ≠ stray := fun e => hstray e.symm
  have hD : menuLoop 2 'l' "D\nE\n".data [] =
      some (MENU_DELETE, "\nE\n".data, [Event.cout menuPrompt, Event.cout "\n"]) := rfl
  have hR : menuLoop 2 'l' "R\nE\n".data [] =
      some (MENU_READ, "\nE\n".data, [Event.cout menuPrompt, Event.cout "\n"]) := rfl
  constructor
  · rw [mainPass, hD]
    exact (dispatch_delete 2 none stray
      ⟨emptyStore, "\nE\n".data, [Event.cout menuPrompt, Event.cout "\n"], []⟩
      (by decide) hword).trans rfl
  · rw [mainPass, hR]
    exact (dispatch_read 2 none stray
      ⟨emptyStore, "\nE\n".data, [Event.cout menuPrompt, Event.cout "\n"], []⟩
      (by decide) hword).trans rfl

/-- Witness of C9: the byte behind the pointer is NUL, so the operand is the empty text. -/
theorem C9_exit_token_reaches_the_store_witness :
    mainPass 2 none "" ⟨emptyStore, "D\nE\n".data, [], []⟩ =
      some (Except.ok (false,
        ⟨⟨[], 1, ""⟩, "\n".data,
         [Event.cout menuPrompt, Event.cout "\n", Event.cout "Dates of Diary Entries:\n",
          Event.cout "\n", Event.cout deletePrompt,
          Event.cout "Diary entry does not exist.\n", Event.cout "\n"],
         [Call.printAllEntryDates, Call.deleteDiaryEntry "E"]⟩)) :=
  (C9_exit_token_reaches_the_store "" (by decide)).1

/-- C10 (evaluation at the failing input): `doesEntryExist` returns at line 63 without
finalizing its statement, so one statement is outstanding after it; a run of `main` that
asks to delete one date and quits reaches `sqlite3_close` with that statement outstanding,
and the close is refused with `SQLITE_BUSY`. -/
theorem C10_doesEntryExist_leaves_statement :
    (doesEntryExist emptyStore "2024-01-01").2.stmts = 1 ∧
    ∃ p, main 3 (fun _ => none) "" [] "D\n2024-01-01\nQ\n".data =
        some (Except.ok (p, SQLITE_BUSY)) ∧
      p.db.stmts = 1 := by
  exact ⟨rfl, _, rfl, rfl⟩

end Diary
